import Mathlib

/-!
Verification of the PDF semantic-extraction-and-retrieval pipeline of the
Agentic-Research-Assistant repository.

The development is a shallow embedding of the Python sources:

* `backend/agents/pdf_analysis_agent.py` — text extraction with bounding
  boxes (`_extract_pdf_content`, `_split_into_sentences`), the FAISS index
  over sentence embeddings (`_build_rag_index`), and retrieval
  (`query_rag_index`).
* `backend/agents/pdf_upload_handler.py` — upload validation
  (`_validate_pdf_file`), file persistence, and the upload-and-analyze
  workflow (`handle_pdf_upload`).

External collaborators are modelled at their documented interfaces:

* The sentence-transformer embedding model is an abstract function
  `enc : String → List ℚ`, L2 normalization an abstract `nrm`; both are
  passed explicitly.  Floating point arithmetic is modelled over `ℚ`.
* A FAISS `IndexFlatIP` holding `n` vectors answers `search(q, k)` with
  exactly `k` (score, label) slots: the top `min k n` stored vectors by
  inner product, in descending score order, followed by `k - min k n`
  padding slots whose label is `-1` (documented FAISS behaviour when the
  index holds fewer than `k` vectors).
* A PyMuPDF document handle is a list of pages; reading a page may raise,
  and every operation on a closed handle raises `ValueError("document
  closed")` (documented PyMuPDF behaviour).
* Python list subscripting `xs[i]` supports negative indices (`pythonGet`).
-/

/-- A rectangle in native page coordinates, PyMuPDF span `bbox` order
`(x0, y0, x1, y1)`. -/
structure BBox where
  x0 : ℚ
  y0 : ℚ
  x1 : ℚ
  y1 : ℚ
deriving DecidableEq

/-- The normalized rectangle stored on a sentence record: fractions of the
page width/height. -/
structure NormBBox where
  left : ℚ
  top : ℚ
  width : ℚ
  height : ℚ
deriving DecidableEq

/-- One sentence record as built by `_extract_pdf_content`
(`sentence_data` dict, pdf_analysis_agent.py lines 143-150). -/
structure SentenceData where
  id : Nat
  text : String
  page : Nat
  bbox : NormBBox
  absolute_bbox : BBox
  sentence_index_in_line : Nat
deriving DecidableEq

/-- A text span of a PyMuPDF page dictionary: text plus its bounding box. -/
structure Span where
  text : String
  bbox : BBox
deriving DecidableEq

/-- A line of a PyMuPDF text block: a list of spans. -/
structure TextLine where
  spans : List Span
deriving DecidableEq

/-- A block of a PyMuPDF page dictionary.  Image blocks carry no "lines"
key, modelled by `none`. -/
structure Block where
  lines : Option (List TextLine)
deriving DecidableEq

/-- The page dictionary returned by `page.get_text("dict")`. -/
structure PageContent where
  blocks : List Block
deriving DecidableEq

/-- One page of an open document.  `content` is the result of loading the
page and reading its text dictionary; `Except.error` models the page
raising during extraction. -/
structure Page where
  content : Except String PageContent
  width : ℚ
  height : ℚ

/-- A document handle as opened by `fitz.open`. -/
structure PDFDoc where
  pages : List Page

/-- The per-page entry appended to `pages_data`
(pdf_analysis_agent.py lines 155-159). -/
structure PageEntry where
  page_number : Nat
  sentences : List SentenceData
  width : ℚ
  height : ℚ

/-- The dict `_extract_pdf_content` is written to return
(pdf_analysis_agent.py lines 163-167). -/
structure ExtractResult where
  sentences : List SentenceData
  pages : List PageEntry
  total_pages : Nat

/-- The observable outcome of `_extract_pdf_content`: the returned value or
the propagated exception, together with whether the document handle was
closed on that path. -/
structure ExtractOutcome where
  result : Except String ExtractResult
  docClosed : Bool

/-- The mutable fields of `PDFAnalysisAgent` that the pipeline reads and
writes: the lazily created embedding model (`None` until
`initialize_embeddings` succeeds, modelled as a `Bool`), the FAISS index
(the list of stored vectors), and the parallel `sentence_metadata` list. -/
structure AgentState where
  embedding_model : Bool
  faiss_index : Option (List (List ℚ))
  sentence_metadata : List SentenceData

/-- A fresh `PDFAnalysisAgent` (constructor, pdf_analysis_agent.py
lines 21-25). -/
def initAgentState : AgentState :=
  { embedding_model := false, faiss_index := none, sentence_metadata := [] }

/-- The dict returned by `_build_rag_index` on success
(pdf_analysis_agent.py lines 322-326). -/
structure RagIndexInfo where
  index_size : Nat
  embedding_dimension : Nat
  index_type : String
deriving DecidableEq

/-- One element of the result list of `query_rag_index`: a copy of the
metadata record plus `similarity_score` and `rank`
(pdf_analysis_agent.py lines 341-347). -/
structure RagHit where
  sentence : SentenceData
  similarity_score : ℚ
  rank : Nat
deriving DecidableEq

/-- The result dict of `_validate_pdf_file`
(pdf_upload_handler.py lines 84-122). -/
structure ValidationResult where
  valid : Bool
  error : Option String
deriving DecidableEq

/-- State owned by `PDFUploadHandler`: its analyzer instance and the files
persisted under the upload directory. -/
structure HandlerState where
  analyzer : AgentState
  savedFiles : List String

/-- A fresh `PDFUploadHandler` holding a fresh analyzer. -/
def initHandlerState : HandlerState :=
  { analyzer := initAgentState, savedFiles := [] }

/-- Condensed successful analysis data of `analyze_pdf` used by the upload
envelope; the citation map and the LLM-generated review/gaps sections are
pure post-processing with internal fallbacks and never touch the modelled
state, so they are not carried here. -/
structure AnalysisSummary where
  total_pages : Nat
  total_sentences : Nat
  rag : RagIndexInfo
deriving DecidableEq

/-- The envelope returned by `handle_pdf_upload`
(pdf_upload_handler.py lines 37-82): success with analysis and file info,
or failure with `error` and `error_type`. -/
inductive UploadOutcome where
  | ok (summary : AnalysisSummary) (file_path : String) (file_size : Nat)
  | failure (error : String) (error_type : String)
deriving DecidableEq

/-! ## Upload validation (pdf_upload_handler.py) -/

/-- `self.max_file_size = 50 * 1024 * 1024` (pdf_upload_handler.py line 23). -/
def max_file_size : Nat := 50 * 1024 * 1024

/-- `self.allowed_extensions` (pdf_upload_handler.py line 24). -/
def allowed_extensions : List String := [".pdf"]

/-- The required magic header bytes, `b"%PDF-"`. -/
def pdfMagic : List Nat := [37, 80, 68, 70, 45]

/-- ASCII range of the regex class `\s` and of the characters removed by
`str.strip` (Python also covers some unicode spaces; the sources only feed
these helpers text produced by the extractor, so the ASCII range is the
relevant one). -/
def isPySpace (c : Char) : Bool :=
  c = ' ' || c = '\t' || c = '\n' || c = '\r' || c = '\x0b' || c = '\x0c'

/-- Python `str.strip()`. -/
def pyStrip (s : String) : String :=
  String.mk (((s.toList.dropWhile isPySpace).reverse.dropWhile isPySpace).reverse)

/-- Python `str.lower()` on the ASCII range. -/
def strToLower (s : String) : String := String.mk (s.toList.map Char.toLower)

/-- `content.startswith(pre)` over byte lists. -/
def bytesStartWith : List Nat → List Nat → Bool
  | [], _ => true
  | _ :: _, [] => false
  | p :: ps, c :: cs => p = c && bytesStartWith ps cs

/-- Index of the last occurrence of `c` in `cs`, if any. -/
def lastIdxOpt (c : Char) : List Char → Option Nat
  | [] => none
  | x :: xs =>
    match lastIdxOpt c xs with
    | some j => some (j + 1)
    | none => if x = c then some 0 else none

/-- The extension component of `os.path.splitext` (CPython
`genericpath._splitext` with posix separator): the suffix from the last
dot, provided that dot lies after the last separator and some non-dot
character of the basename precedes it (so dotfiles have no extension). -/
def splitextExt (p : String) : String :=
  let cs := p.toList
  match lastIdxOpt '.' cs with
  | none => ""
  | some d =>
    let base : Nat :=
      match lastIdxOpt '/' cs with
      | none => 0
      | some s => s + 1
    if base ≤ d ∧
        ((List.range d).any fun j => decide (base ≤ j) && decide (cs.getD j ' ' ≠ '.')) = true then
      String.mk (cs.drop d)
    else ""

/-- `_validate_pdf_file` (pdf_upload_handler.py lines 84-122): extension,
then size, then emptiness, then magic header; the body is total so the
surrounding try/except never fires. -/
def _validate_pdf_file (file_content : List Nat) (filename : String) : ValidationResult :=
  let file_ext := strToLower (splitextExt filename)
  if file_ext ∈ allowed_extensions then
    if max_file_size < file_content.length then
      { valid := false, error := some "File too large. Maximum size: 50.0MB" }
    else if file_content.length = 0 then
      { valid := false, error := some "File is empty" }
    else if bytesStartWith pdfMagic file_content = false then
      { valid := false, error := some "Invalid PDF file format" }
    else
      { valid := true, error := none }
  else
    { valid := false,
      error := some ("Invalid file type. Only PDF files are allowed. Got: " ++ file_ext) }

/-- Python `re` word characters, ASCII range of `\w`. -/
def pyWordChar (c : Char) : Bool := c.isAlphanum || c = '_'

/-- One character of `re.sub(pattern, "_", filename)` for the pattern
keeping word characters, dash, underscore and dot
(pdf_upload_handler.py line 151). -/
def sanitizeChar (c : Char) : Char :=
  if pyWordChar c || c = '-' || c = '.' then c else '_'

/-- `_sanitize_filename` (pdf_upload_handler.py lines 147-158). -/
def _sanitize_filename (filename : String) : String :=
  let s := filename.map sanitizeChar
  if 100 < s.length then
    let ext := splitextExt s
    String.mk ((s.toList.take (s.length - ext.length)).take 95) ++ ext
  else s

/-- `_save_uploaded_file` (pdf_upload_handler.py lines 124-145): persists
the bytes under a generated name inside the upload directory and returns
the path.  The timestamp/uuid prefix is external nondeterminism and is not
modelled; only the fact that exactly one new file appears matters here. -/
def _save_uploaded_file (st : HandlerState) (filename : String) : HandlerState × String :=
  let path := "uploads/" ++ _sanitize_filename filename
  ({ st with savedFiles := st.savedFiles ++ [path] }, path)

/-! ## Sentence segmentation (pdf_analysis_agent.py lines 173-186) -/

/-- Characters of the regex class placed before the whitespace in the
split pattern of `_split_into_sentences`. -/
def isTermChar (c : Char) : Bool := c = '.' || c = '!' || c = '?'

/-- Worker for the regex split on one-or-more terminators followed by
one-or-more whitespace characters.  The terminator and whitespace classes
are disjoint, so the greedy leftmost match of the pattern starts at a
terminator whose maximal terminator run is immediately followed by
whitespace; no backtracking can produce any other match.  `fuel` bounds
the recursion and exceeds the remaining input length at every call. -/
def splitTermAux : Nat → List Char → List Char → List (List Char) → List (List Char)
  | 0, rem, cur, acc => acc ++ [cur.reverse ++ rem]
  | _ + 1, [], cur, acc => acc ++ [cur.reverse]
  | fuel + 1, c :: rest, cur, acc =>
    if isTermChar c then
      let terms := (c :: rest).takeWhile isTermChar
      let afterTerms := (c :: rest).drop terms.length
      let spaces := afterTerms.takeWhile isPySpace
      if 0 < spaces.length then
        splitTermAux fuel (afterTerms.drop spaces.length) [] (acc ++ [cur.reverse])
      else
        splitTermAux fuel rest (c :: cur) acc
    else
      splitTermAux fuel rest (c :: cur) acc

/-- `re.split` on the sentence-terminal pattern of
`_split_into_sentences`. -/
def pySplitSentences (text : String) : List String :=
  (splitTermAux (text.toList.length + 1) text.toList [] []).map String.mk

/-- `_split_into_sentences` (pdf_analysis_agent.py lines 173-186): regex
split, then keep the stripped pieces that are non-empty and longer than
5 characters. -/
def _split_into_sentences (text : String) : List String :=
  ((pySplitSentences text).map pyStrip).filter
    fun s => decide (s ≠ "") && decide (5 < s.length)

/-! ## Geometric text extraction (pdf_analysis_agent.py lines 94-171) -/

/-- The per-line span walk (pdf_analysis_agent.py lines 113-127):
concatenates span texts and expands the running line box to the union of
the span boxes. -/
def spanFold (spans : List Span) : String × Option BBox :=
  spans.foldl
    (fun acc sp =>
      ( acc.1 ++ sp.text,
        match acc.2 with
        | none => some sp.bbox
        | some bb =>
          some { x0 := min bb.x0 sp.bbox.x0, y0 := min bb.y0 sp.bbox.y0,
                 x1 := max bb.x1 sp.bbox.x1, y1 := max bb.y1 sp.bbox.y1 } ))
    ("", none)

/-- Normalization of the line box to page fractions
(pdf_analysis_agent.py lines 136-141).  Division is over `ℚ`; PyMuPDF page
dimensions are positive. -/
def normBBox (bb : BBox) (pw ph : ℚ) : NormBBox :=
  { left := bb.x0 / pw, top := bb.y0 / ph,
    width := (bb.x1 - bb.x0) / pw, height := (bb.y1 - bb.y0) / ph }

/-- The `sentence_data` dict (pdf_analysis_agent.py lines 143-150); the id
is the length of the global sentence list at append time. -/
def mkSentenceData (idv : Nat) (s : String) (pageNum : Nat) (bb : BBox)
    (pw ph : ℚ) (i : Nat) : SentenceData :=
  { id := idv, text := pyStrip s, page := pageNum + 1, bbox := normBBox bb pw ph,
    absolute_bbox := bb, sentence_index_in_line := i }

/-- The inner `for i, sentence in enumerate(line_sentences)` loop
(pdf_analysis_agent.py lines 133-153): sentences whose stripped length
exceeds 10 are appended to both the global list and the page list. -/
def emitSentences (pw ph : ℚ) (pageNum : Nat) (bb : BBox) :
    List (Nat × String) → List SentenceData → List SentenceData →
    List SentenceData × List SentenceData
  | [], sents, psents => (sents, psents)
  | (i, s) :: rest, sents, psents =>
    if 10 < (pyStrip s).length then
      let sd := mkSentenceData sents.length s pageNum bb pw ph i
      emitSentences pw ph pageNum bb rest (sents ++ [sd]) (psents ++ [sd])
    else
      emitSentences pw ph pageNum bb rest sents psents

/-- Processing of one line (pdf_analysis_agent.py lines 112-153).  A line
whose concatenated text is non-blank necessarily saw at least one span, so
the `none` box branch is unreachable and keeps the accumulator. -/
def processLine (pw ph : ℚ) (pageNum : Nat) (ln : TextLine)
    (acc : List SentenceData × List SentenceData) :
    List SentenceData × List SentenceData :=
  let fold := spanFold ln.spans
  if pyStrip fold.1 ≠ "" then
    match fold.2 with
    | some bb => emitSentences pw ph pageNum bb (_split_into_sentences fold.1).enum acc.1 acc.2
    | none => acc
  else acc

/-- Processing of one block (pdf_analysis_agent.py lines 110-112): blocks
without a "lines" key are skipped. -/
def processBlock (pw ph : ℚ) (pageNum : Nat) (b : Block)
    (acc : List SentenceData × List SentenceData) :
    List SentenceData × List SentenceData :=
  match b.lines with
  | some lns => lns.foldl (fun a l => processLine pw ph pageNum l a) acc
  | none => acc

/-- Processing of all blocks of one page; the page-local sentence list
starts empty (pdf_analysis_agent.py line 107). -/
def processPageBlocks (pw ph : ℚ) (pageNum : Nat) (blocks : List Block)
    (sents : List SentenceData) : List SentenceData × List SentenceData :=
  blocks.foldl (fun a b => processBlock pw ph pageNum b a) (sents, [])

/-- The `for page_num in range(len(doc))` loop
(pdf_analysis_agent.py lines 101-159).  A page whose text read raises
propagates the exception immediately. -/
def extractPagesAux : List Page → Nat → List SentenceData → List PageEntry →
    Except String (List SentenceData × List PageEntry)
  | [], _, sents, pagesAcc => .ok (sents, pagesAcc)
  | p :: rest, pageNum, sents, pagesAcc =>
    match p.content with
    | .error e => .error e
    | .ok pc =>
      let res := processPageBlocks p.width p.height pageNum pc.blocks sents
      extractPagesAux rest (pageNum + 1) res.1
        (pagesAcc ++ [{ page_number := pageNum + 1, sentences := res.2,
                        width := p.width, height := p.height }])

/-- The page walk of `_extract_pdf_content` over an open document. -/
def extractLoop (doc : PDFDoc) : Except String (List SentenceData × List PageEntry) :=
  extractPagesAux doc.pages 0 [] []

/-- `_extract_pdf_content` (pdf_analysis_agent.py lines 94-171).  If the
page walk raises, the surrounding try/except re-raises without ever
reaching `doc.close()`, so the handle stays open.  If the walk succeeds,
`doc.close()` runs (line 161) and then the return dict evaluates
`len(doc)` for its `total_pages` value (line 166) on the now-closed
handle, which raises `ValueError("document closed")`; the except block
re-raises it, so the successful return value is never produced. -/
def _extract_pdf_content (doc : PDFDoc) : ExtractOutcome :=
  match extractLoop doc with
  | .error e => { result := .error e, docClosed := false }
  | .ok _ => { result := .error "document closed", docClosed := true }

/-! ## Embedding index construction (pdf_analysis_agent.py lines 32-39 and
297-326) -/

/-- `initialize_embeddings` (pdf_analysis_agent.py lines 32-39): loads the
sentence-transformer model; when the dependency is unavailable (`avail`
false) the except block logs and re-raises. -/
def initialize_embeddings (avail : Bool) (st : AgentState) : Except String AgentState :=
  if avail then .ok { st with embedding_model := true }
  else .error "Failed to initialize embedding model"

/-- `_build_rag_index` (pdf_analysis_agent.py lines 297-326).  The model is
created lazily; the texts are encoded; `embeddings.shape[1]` raises an
IndexError on an empty sentence list (the area of a 1-dimensional empty
array has no second axis) before any field is assigned; otherwise the
vectors are L2-normalized, added to a fresh `IndexFlatIP`, and the
metadata list is replaced. -/
def _build_rag_index (avail : Bool) (enc : String → List ℚ) (nrm : List ℚ → List ℚ)
    (st : AgentState) (sentences : List SentenceData) :
    Except String (AgentState × RagIndexInfo) :=
  match (if st.embedding_model then Except.ok st else initialize_embeddings avail st) with
  | .error e => .error e
  | .ok st1 =>
    match (sentences.map fun s => s.text).map enc with
    | [] => .error "tuple index out of range"
    | e0 :: _ =>
      let normalized := ((sentences.map fun s => s.text).map enc).map nrm
      .ok ({ st1 with faiss_index := some normalized, sentence_metadata := sentences },
           { index_size := sentences.length, embedding_dimension := e0.length,
             index_type := "FAISS_IndexFlatIP" })

/-! ## Retrieval (pdf_analysis_agent.py lines 328-349) -/

/-- Inner product of two vectors, the `IndexFlatIP` metric. -/
def ipScore (q v : List ℚ) : ℚ := (List.zipWith (fun a b => a * b) q v).sum

/-- Score every stored vector against the query, keeping its position as
the FAISS label. -/
def faissScores (stored : List (List ℚ)) (q : List ℚ) : List (ℚ × Int) :=
  (List.range stored.length).map fun i => (ipScore q (stored.getD i []), (i : Int))

/-- Insertion into a descending-score list; equal scores keep ascending
label order. -/
def insertDesc (p : ℚ × Int) : List (ℚ × Int) → List (ℚ × Int)
  | [] => [p]
  | q :: rest =>
    if q.1 < p.1 ∨ (p.1 = q.1 ∧ p.2 ≤ q.2) then p :: q :: rest
    else q :: insertDesc p rest

/-- Sort candidates by descending score. -/
def sortDesc : List (ℚ × Int) → List (ℚ × Int)
  | [] => []
  | p :: rest => insertDesc p (sortDesc rest)

/-- The sentinel score FAISS leaves in unfilled result slots (the metric
worst value; its numeric value is irrelevant to the claims). -/
def padScore : ℚ := -(10 ^ 9)

/-- `index.search(q, k)` on an `IndexFlatIP` holding `stored`: exactly `k`
slots, the best `min k n` labels in descending score order followed by
padding slots labelled `-1`. -/
def faissSearch (stored : List (List ℚ)) (q : List ℚ) (k : Nat) : List (ℚ × Int) :=
  let top := (sortDesc (faissScores stored q)).take k
  top ++ List.replicate (k - top.length) (padScore, -1)

/-- Python list subscripting with negative-index support; `none` models an
IndexError. -/
def pythonGet {α : Type} (xs : List α) (i : Int) : Option α :=
  if 0 ≤ i then xs.get? i.toNat
  else if 0 ≤ (xs.length : Int) + i then xs.get? ((xs.length : Int) + i).toNat
  else none

/-- The result-building loop of `query_rag_index`
(pdf_analysis_agent.py lines 341-347): slots whose label is at least the
metadata length are skipped, every other label is used to subscript the
metadata list (negative labels reach the tail of the list), and the rank
counts all slots seen so far. -/
def buildResultsAux (md : List SentenceData) :
    List (ℚ × Int) → Nat → Except String (List RagHit)
  | [], _ => .ok []
  | (score, idx) :: rest, i =>
    if idx < (md.length : Int) then
      match pythonGet md idx with
      | some s =>
        match buildResultsAux md rest (i + 1) with
        | .ok hits => .ok ({ sentence := s, similarity_score := score, rank := i + 1 } :: hits)
        | .error e => .error e
      | none => .error "list index out of range"
    else
      buildResultsAux md rest (i + 1)

/-- `query_rag_index` (pdf_analysis_agent.py lines 328-349): raises the
not-initialized ValueError unless both the index and the model exist;
otherwise encodes and normalizes the query, searches, and maps labels back
through the metadata list. -/
def query_rag_index (enc : String → List ℚ) (nrm : List ℚ → List ℚ)
    (st : AgentState) (query : String) (top_k : Nat) : Except String (List RagHit) :=
  match st.faiss_index, st.embedding_model with
  | some stored, true =>
    let query_embedding := nrm (enc query)
    buildResultsAux st.sentence_metadata (faissSearch stored query_embedding top_k) 0
  | _, _ => .error "RAG index not initialized"

/-! ## Analysis pipeline and upload workflow -/

/-- `analyze_pdf` (pdf_analysis_agent.py lines 41-92) restricted to the
state it touches: extraction, then the RAG index build over the extracted
sentences.  Citation parsing (step 2) is a pure total function of the
extraction result, and the literature-review and gaps steps (4-5) guard
every failure with internal fallbacks; none of them read or write the
modelled state, so they contribute nothing observable here. -/
def analyze_pdf (avail : Bool) (enc : String → List ℚ) (nrm : List ℚ → List ℚ)
    (st : AgentState) (doc : PDFDoc) : Except String (AgentState × AnalysisSummary) :=
  match (_extract_pdf_content doc).result with
  | .error e => .error e
  | .ok ext =>
    match _build_rag_index avail enc nrm st ext.sentences with
    | .error e => .error e
    | .ok (st1, rag) =>
      .ok (st1, { total_pages := ext.total_pages,
                  total_sentences := ext.sentences.length, rag := rag })

/-- `handle_pdf_upload` (pdf_upload_handler.py lines 29-82): validation
failure returns the validation envelope before any disk write or analyzer
call; otherwise the file is saved, `initialize_embeddings` runs
unconditionally (line 51), and the PDF opened from the saved path is
analyzed; any exception is caught and converted to the processing
envelope.  `doc` stands for the document `fitz.open` yields for the saved
file. -/
def handle_pdf_upload (avail : Bool) (enc : String → List ℚ) (nrm : List ℚ → List ℚ)
    (st : HandlerState) (file_content : List Nat) (filename : String) (doc : PDFDoc) :
    HandlerState × UploadOutcome :=
  let v := _validate_pdf_file file_content filename
  if v.valid then
    let saved := _save_uploaded_file st filename
    match initialize_embeddings avail saved.1.analyzer with
    | .error e => (saved.1, .failure e "processing")
    | .ok ag1 =>
      match analyze_pdf avail enc nrm ag1 doc with
      | .error e => ({ saved.1 with analyzer := ag1 }, .failure e "processing")
      | .ok (ag2, summary) =>
        ({ saved.1 with analyzer := ag2 }, .ok summary saved.2 file_content.length)
  else
    (st, .failure (v.error.getD "") "validation")

/-! ## Answer synthesis (spec section 4.5) -/

/-- One element of the `sources` list of an answer. -/
structure AskSource where
  sentence_id : Nat
  page : Nat
  score : ℚ
deriving DecidableEq

/-- The result of `ask_question`. -/
structure AskResult where
  answer : Option String
  context : String
  sources : List AskSource
deriving DecidableEq

/-- Modelled from the spec: the method `ask_question` is invoked on the
analyzer by `app.py` (`chat_pdf_endpoint`, line 123) but its definition is
not among the sources.  Spec section 4.5: in the `NoIndex` state the
result is `answer = null`, empty context and no sources; in `IndexReady`
the retrieval hits are joined with a blank-line separator into the
context, `sources` lists id/page/score per hit in order, and with no LLM
configured the answer is the context itself; retrieval failure degrades to
the `NoIndex` result. -/
def ask_question (enc : String → List ℚ) (nrm : List ℚ → List ℚ)
    (st : AgentState) (question : String) (top_k : Nat) : AskResult :=
  match st.faiss_index with
  | none => { answer := none, context := "", sources := [] }
  | some _ =>
    match query_rag_index enc nrm st question top_k with
    | .error _ => { answer := none, context := "", sources := [] }
    | .ok hits =>
      let context := String.intercalate "\n\n" (hits.map fun h => h.sentence.text)
      { answer := some context, context := context,
        sources := hits.map fun h =>
          { sentence_id := h.sentence.id, page := h.sentence.page,
            score := h.similarity_score } }

/-! ## Concrete instances used by witnesses and counterexamples -/

/-- A concrete embedding function: every text maps to the vector `[1]`. -/
def encConst : String → List ℚ := fun _ => [1]

/-- A concrete normalization function (identity; `[1]` is already unit). -/
def nrmId : List ℚ → List ℚ := fun v => v

/-- A concrete sentence record. -/
def sampleSentence : SentenceData :=
  { id := 0, text := "a quantum computing sentence", page := 1,
    bbox := { left := 0, top := 0, width := 1, height := 1 },
    absolute_bbox := { x0 := 0, y0 := 0, x1 := 1, y1 := 1 },
    sentence_index_in_line := 0 }

/-- The agent state and info record produced by building the index over
the single `sampleSentence`. -/
def builtOut1 : AgentState × RagIndexInfo :=
  match _build_rag_index true encConst nrmId initAgentState [sampleSentence] with
  | .ok out => out
  | .error _ => (initAgentState, { index_size := 0, embedding_dimension := 0, index_type := "" })

/-- A page carrying one line with two sentences. -/
def samplePage : Page :=
  { content := .ok
      { blocks := [ { lines := some [ { spans := [
          { text := "Alpha beta gamma delta one. Epsilon zeta eta theta two.",
            bbox := { x0 := 0, y0 := 0, x1 := 10, y1 := 10 } } ] } ] } ] },
    width := 100, height := 200 }

/-- A one-page document whose page walk succeeds. -/
def sampleDoc : PDFDoc := { pages := [samplePage] }

/-- A one-page document whose page read raises. -/
def failingDoc : PDFDoc :=
  { pages := [ { content := .error "page read failed", width := 100, height := 200 } ] }

/-- A one-page document with no text blocks: extraction yields zero
sentence records. -/
def emptyPageDoc : PDFDoc :=
  { pages := [ { content := .ok { blocks := [] }, width := 100, height := 200 } ] }

/-- An analyzer state holding a size-0 index, as the claim about
built-but-empty indexes describes it; `_build_rag_index` can never produce
this state. -/
def emptyIndexState : AgentState :=
  { embedding_model := true, faiss_index := some [], sentence_metadata := [] }

/-- Well-formed PDF upload bytes (exactly the magic header). -/
def pdfBytes : List Nat := [37, 80, 68, 70, 45]

/-! ## Claim C2 — extraction result shape -/

/-- Claim C2 (code bug): extraction is claimed to return a result whose
`totalPages` equals the page count, with one `pages` entry per page.  The
code closes the document handle (line 161) and only then evaluates
`len(doc)` inside the return dict (line 166), which raises
`ValueError("document closed")` on the closed handle, so
`_extract_pdf_content` never returns a result for any document; on the
concrete one-page `sampleDoc` it raises exactly this error. -/
theorem extract_total_pages_after_close_bug :
    (∀ doc : PDFDoc, (_extract_pdf_content doc).result.isOk = false)
    ∧ (_extract_pdf_content sampleDoc).result = .error "document closed" := by
  refine ⟨fun doc => ?_, rfl⟩
  unfold _extract_pdf_content
  cases extractLoop doc <;> rfl

/-! ## Claim C5 — upload validation order and short-circuit -/

/-- Claim C5 (confirmed): `_validate_pdf_file` checks the extension, then
the byte length (over-size, then emptiness), then the magic header, the
first failing rule producing the error; any validation failure makes
`handle_pdf_upload` return the `validation` envelope with the handler
state untouched — no file is saved and the analyzer is never invoked. -/
theorem upload_validation_order_and_shortcircuit :
    (∀ (content : List Nat) (filename : String) (avail : Bool)
        (enc : String → List ℚ) (nrm : List ℚ → List ℚ) (st : HandlerState) (doc : PDFDoc),
        (_validate_pdf_file content filename).valid = false →
        handle_pdf_upload avail enc nrm st content filename doc
          = (st, .failure ((_validate_pdf_file content filename).error.getD "") "validation"))
    ∧ (∀ (content : List Nat) (filename : String),
        strToLower (splitextExt filename) ≠ ".pdf" →
        _validate_pdf_file content filename
          = { valid := false,
              error := some ("Invalid file type. Only PDF files are allowed. Got: "
                ++ strToLower (splitextExt filename)) })
    ∧ (∀ (content : List Nat) (filename : String),
        strToLower (splitextExt filename) = ".pdf" →
        max_file_size < content.length →
        _validate_pdf_file content filename
          = { valid := false, error := some "File too large. Maximum size: 50.0MB" })
    ∧ (∀ (content : List Nat) (filename : String),
        strToLower (splitextExt filename) = ".pdf" →
        content.length ≤ max_file_size → content.length = 0 →
        _validate_pdf_file content filename
          = { valid := false, error := some "File is empty" })
    ∧ (∀ (content : List Nat) (filename : String),
        strToLower (splitextExt filename) = ".pdf" →
        content.length ≤ max_file_size → 0 < content.length →
        bytesStartWith pdfMagic content = false →
        _validate_pdf_file content filename
          = { valid := false, error := some "Invalid PDF file format" }) := by
  refine ⟨fun content filename avail enc nrm st doc h => ?_,
          fun content filename h => ?_,
          fun content filename h1 h2 => ?_,
          fun content filename h1 h2 h3 => ?_,
          fun content filename h1 h2 h3 h4 => ?_⟩
  · simp [handle_pdf_upload, h]
  · simp [_validate_pdf_file, allowed_extensions, h]
  · simp [_validate_pdf_file, allowed_extensions, h1, h2]
  · simp [_validate_pdf_file, allowed_extensions, h1, h3, Nat.not_lt.mpr h2]
  · simp [_validate_pdf_file, allowed_extensions, h1, h4, Nat.not_lt.mpr h2,
          Nat.pos_iff_ne_zero.mp h3]

/-- Witness for claim C5 at concrete inputs: a `.txt` filename fails the
extension rule, and a 0-byte `.pdf` upload leaves the handler state
unchanged with a `validation` envelope. -/
theorem upload_validation_order_and_shortcircuit_witness :
    _validate_pdf_file pdfBytes "notes.txt"
      = { valid := false,
          error := some ("Invalid file type. Only PDF files are allowed. Got: "
            ++ strToLower (splitextExt "notes.txt")) }
    ∧ handle_pdf_upload true encConst nrmId initHandlerState [] "a.pdf" sampleDoc
      = (initHandlerState,
         .failure ((_validate_pdf_file [] "a.pdf").error.getD "") "validation") :=
  ⟨upload_validation_order_and_shortcircuit.2.1 pdfBytes "notes.txt" (by decide),
   upload_validation_order_and_shortcircuit.1 [] "a.pdf" true encConst nrmId
     initHandlerState sampleDoc (by decide)⟩

/-! ## Claim C9 — document handle release -/

/-- The page walk returns a value exactly when every page read succeeds;
a raising page propagates immediately. -/
theorem extractPagesAux_ok_iff (pages : List Page) : ∀ (n : Nat) (s : List SentenceData)
    (pa : List PageEntry),
    (∃ out, extractPagesAux pages n s pa = Except.ok out)
      ↔ ∀ p ∈ pages, ∃ pc, p.content = Except.ok pc := by
  induction pages with
  | nil => intro n s pa; simp [extractPagesAux]
  | cons p rest ih =>
    intro n s pa
    cases hc : p.content with
    | error e => simp [extractPagesAux, hc]
    | ok pc =>
      simp only [extractPagesAux, hc]
      rw [ih]
      simp [hc]

/-- Claim C9 (corrected): the handle is released only when the page walk
succeeds.  When a per-page read raises, the exception propagates out of
`_extract_pdf_content` without reaching `doc.close()` — there is no
try/finally or context manager — so the handle stays open; when the walk
succeeds the handle is closed (and the subsequent `len(doc)` on the closed
handle raises, which is claim C2's bug). -/
theorem doc_closed_iff_pages_ok (doc : PDFDoc) :
    (∀ p ∈ doc.pages, ∃ pc, p.content = Except.ok pc)
      ↔ (_extract_pdf_content doc).docClosed = true := by
  rw [← extractPagesAux_ok_iff doc.pages 0 [] []]
  unfold _extract_pdf_content extractLoop
  cases h : extractPagesAux doc.pages 0 [] [] with
  | error e => simp [h]
  | ok out => simp [h]

/-- Witness for claim C9: on the concrete `sampleDoc`, whose single page
reads fine, the handle is closed. -/
theorem doc_closed_iff_pages_ok_witness :
    (_extract_pdf_content sampleDoc).docClosed = true :=
  (doc_closed_iff_pages_ok sampleDoc).mp (by
    intro p hp
    simp only [sampleDoc, List.mem_singleton] at hp
    subst hp
    exact ⟨_, rfl⟩)

/-- Counterexample for claim C9 as stated: on a document whose single page
read raises, the handle is not released. -/
theorem failing_page_leaves_doc_open :
    (_extract_pdf_content failingDoc).docClosed = false := rfl

/-! ## Claim C7 — asking with no index -/

/-- Claim C7 (confirmed, spec-modelled `ask_question`): in the `NoIndex`
state — no index built yet — asking a question returns
`answer = none`, empty context and no sources, without raising. -/
theorem ask_question_no_index_returns_empty (enc : String → List ℚ)
    (nrm : List ℚ → List ℚ) (st : AgentState) (question : String) (top_k : Nat)
    (h : st.faiss_index = none) :
    ask_question enc nrm st question top_k
      = { answer := none, context := "", sources := [] } := by
  unfold ask_question
  rw [h]

/-- Witness for claim C7 on a fresh analyzer. -/
theorem ask_question_no_index_returns_empty_witness :
    ask_question encConst nrmId initAgentState "What does this paper discuss?" 5
      = { answer := none, context := "", sources := [] } :=
  ask_question_no_index_returns_empty encConst nrmId initAgentState
    "What does this paper discuss?" 5 rfl

/-! ## Claim C8 — query preconditions -/

/-- Claim C8 (corrected): a query before any build raises the distinct
`RAG index not initialized` ValueError (not a crash at the caller —
`search_pdf_content` converts it to a structured failure — and not an
empty result).  A built-but-empty index, however, cannot exist:
`_build_rag_index` on an empty sentence list raises before installing the
index; on a manually constructed size-0 index state a query raises a list
IndexError (the FAISS padding label `-1` passes the bound check and
subscripts the empty metadata list) instead of returning `[]`. -/
theorem query_precondition_behavior :
    (∀ (enc : String → List ℚ) (nrm : List ℚ → List ℚ) (q : String) (k : Nat),
        query_rag_index enc nrm initAgentState q k = .error "RAG index not initialized")
    ∧ (∀ (enc : String → List ℚ) (nrm : List ℚ → List ℚ) (st : AgentState),
        _build_rag_index true enc nrm st [] = .error "tuple index out of range")
    ∧ query_rag_index encConst nrmId emptyIndexState "q" 1
        = .error "list index out of range" := by
  refine ⟨fun enc nrm q k => rfl, fun enc nrm st => ?_, rfl⟩
  cases hm : st.embedding_model <;> simp [_build_rag_index, initialize_embeddings, hm]

/-- Counterexample for claim C8 as stated: the claimed empty result list
on a built-but-empty index does not happen — the query raises instead. -/
theorem empty_index_query_raises :
    query_rag_index encConst nrmId emptyIndexState "q" 1 ≠ Except.ok [] := by
  intro h
  rw [show query_rag_index encConst nrmId emptyIndexState "q" 1
        = Except.error "list index out of range" from rfl] at h
  exact Except.noConfusion h

/-! ## Index build inversion -/

/-- Inversion of a successful `_build_rag_index` call: the sentence list
was non-empty, the model is initialized, the stored vectors are the
normalized encodings of the sentence texts in order, and the metadata list
is the sentence list itself. -/
theorem build_ok_state (avail : Bool) (enc : String → List ℚ) (nrm : List ℚ → List ℚ)
    (st : AgentState) (sents : List SentenceData) (out : AgentState × RagIndexInfo)
    (h : _build_rag_index avail enc nrm st sents = .ok out) :
    ∃ a l, sents = a :: l ∧
      out = ({ embedding_model := true,
               faiss_index := some (((sents.map fun s => s.text).map enc).map nrm),
               sentence_metadata := sents },
             { index_size := sents.length,
               embedding_dimension := (enc a.text).length,
               index_type := "FAISS_IndexFlatIP" }) := by
  cases sents with
  | nil =>
    exfalso
    cases hm : st.embedding_model <;> cases avail <;>
      simp [_build_rag_index, initialize_embeddings, hm] at h
  | cons a l =>
    refine ⟨a, l, rfl, ?_⟩
    cases hm : st.embedding_model <;> cases avail <;>
      simp [_build_rag_index, initialize_embeddings, hm] at h <;>
      simp [← h, hm]

/-- `get` distributes over `map`. -/
theorem listGetMap {α β : Type} (f : α → β) : ∀ (l : List α) (i : Nat)
    (h1 : i < (l.map f).length) (h2 : i < l.length),
    (l.map f).get ⟨i, h1⟩ = f (l.get ⟨i, h2⟩)
  | _ :: _, 0, _, _ => rfl
  | _ :: l, i + 1, h1, h2 =>
    listGetMap f l i (by simpa using h1) (by simpa using h2)

/-! ## Claim C3 — index/metadata consistency -/

/-- Claim C3 (confirmed): when `_build_rag_index` completes, the reported
index size equals the sentence count, the metadata list is the sentence
list, and the vector stored at position `i` is the normalized encoding of
the text of `sentence_metadata[i]`. -/
theorem build_index_metadata_consistent (avail : Bool) (enc : String → List ℚ)
    (nrm : List ℚ → List ℚ) (st : AgentState) (sents : List SentenceData)
    (out : AgentState × RagIndexInfo)
    (h : _build_rag_index avail enc nrm st sents = .ok out) :
    out.2.index_size = sents.length
    ∧ out.1.sentence_metadata = sents
    ∧ ∃ stored, out.1.faiss_index = some stored
        ∧ stored.length = sents.length
        ∧ ∀ (i : Nat) (h1 : i < stored.length) (h2 : i < sents.length),
            stored.get ⟨i, h1⟩ = nrm (enc (sents.get ⟨i, h2⟩).text) := by
  obtain ⟨a, l, hs, hout⟩ := build_ok_state avail enc nrm st sents out h
  rw [hout]
  refine ⟨rfl, rfl, ((sents.map fun s => s.text).map enc).map nrm, rfl, by simp, ?_⟩
  intro i h1 h2
  have hb1 : i < ((sents.map fun s => s.text).map enc).length := by simpa using h2
  have hb2 : i < (sents.map fun s => s.text).length := by simpa using h2
  rw [listGetMap nrm _ i h1 hb1, listGetMap enc _ i hb1 hb2,
      listGetMap (fun s => s.text) sents i hb2 h2]

/-- Witness for claim C3 on the concrete one-sentence build. -/
theorem build_index_metadata_consistent_witness :
    builtOut1.2.index_size = [sampleSentence].length
    ∧ builtOut1.1.sentence_metadata = [sampleSentence]
    ∧ ∃ stored, builtOut1.1.faiss_index = some stored
        ∧ stored.length = [sampleSentence].length
        ∧ ∀ (i : Nat) (h1 : i < stored.length) (h2 : i < [sampleSentence].length),
            stored.get ⟨i, h1⟩ = nrmId (encConst ([sampleSentence].get ⟨i, h2⟩).text) :=
  build_index_metadata_consistent true encConst nrmId initAgentState [sampleSentence]
    builtOut1 rfl

/-! ## Claim C6 — unavailable embedding dependency -/

/-- Claim C6 (corrected): when the embedding dependency is unavailable,
`initialize_embeddings` re-raises, `_build_rag_index` and `analyze_pdf`
propagate the exception, and `handle_pdf_upload` converts it to the
structured `processing` failure envelope.  The caller does not crash, but
no analysis with an `indexBuilt=false` report is produced — the whole
analysis fails (no such flag exists in the code). -/
theorem missing_model_error_propagation :
    (∀ (enc : String → List ℚ) (nrm : List ℚ → List ℚ) (st : AgentState)
        (sents : List SentenceData),
        st.embedding_model = false →
        _build_rag_index false enc nrm st sents
          = .error "Failed to initialize embedding model")
    ∧ (∀ (enc : String → List ℚ) (nrm : List ℚ → List ℚ) (hst : HandlerState)
        (content : List Nat) (filename : String) (doc : PDFDoc),
        (_validate_pdf_file content filename).valid = true →
        handle_pdf_upload false enc nrm hst content filename doc
          = ((_save_uploaded_file hst filename).1,
             .failure "Failed to initialize embedding model" "processing")) := by
  constructor
  · intro enc nrm st sents hm
    simp [_build_rag_index, initialize_embeddings, hm]
  · intro enc nrm hst content filename doc hv
    simp [handle_pdf_upload, hv, initialize_embeddings]

/-- Witness for claim C6 at concrete inputs. -/
theorem missing_model_error_propagation_witness :
    _build_rag_index false encConst nrmId initAgentState [sampleSentence]
      = .error "Failed to initialize embedding model"
    ∧ handle_pdf_upload false encConst nrmId initHandlerState pdfBytes "a.pdf" sampleDoc
      = ((_save_uploaded_file initHandlerState "a.pdf").1,
         .failure "Failed to initialize embedding model" "processing") :=
  ⟨missing_model_error_propagation.1 encConst nrmId initAgentState [sampleSentence] rfl,
   missing_model_error_propagation.2 encConst nrmId initHandlerState pdfBytes "a.pdf"
     sampleDoc rfl⟩

/-- Counterexample for claim C6 as stated: with the embedding dependency
unavailable, a valid upload ends in the `processing` failure envelope —
the analysis does not complete with any `indexBuilt=false` report. -/
theorem missing_model_fails_upload :
    (handle_pdf_upload false encConst nrmId initHandlerState pdfBytes "a.pdf" sampleDoc).2
      = .failure "Failed to initialize embedding model" "processing" := rfl

/-! ## Claim C10 — empty extraction publishes no index -/

/-- Claim C10 (confirmed): a valid document with no extractable sentences
makes the upload flow return the `processing` failure envelope while the
analyzer's `faiss_index` stays unset (with the current code the extraction
itself already raises `document closed` before the build is reached);
independently, `_build_rag_index` on an empty sentence list raises before
any assignment, and every successfully built index is non-empty, so a
size-0 built index is never observable. -/
theorem empty_extraction_no_index_published :
    ((handle_pdf_upload true encConst nrmId initHandlerState pdfBytes "doc.pdf"
        emptyPageDoc).2 = .failure "document closed" "processing")
    ∧ ((handle_pdf_upload true encConst nrmId initHandlerState pdfBytes "doc.pdf"
        emptyPageDoc).1.analyzer.faiss_index = none)
    ∧ (∀ (enc : String → List ℚ) (nrm : List ℚ → List ℚ) (st : AgentState),
        _build_rag_index true enc nrm st [] = .error "tuple index out of range")
    ∧ (∀ (avail : Bool) (enc : String → List ℚ) (nrm : List ℚ → List ℚ)
        (st : AgentState) (sents : List SentenceData) (out : AgentState × RagIndexInfo),
        _build_rag_index avail enc nrm st sents = .ok out →
        ∃ v rest, out.1.faiss_index = some (v :: rest)) := by
  refine ⟨rfl, rfl, fun enc nrm st => ?_, fun avail enc nrm st sents out h => ?_⟩
  · cases hm : st.embedding_model <;> simp [_build_rag_index, initialize_embeddings, hm]
  · obtain ⟨a, l, hs, hout⟩ := build_ok_state avail enc nrm st sents out h
    subst hs
    exact ⟨nrm (enc a.text), (l.map fun s => nrm (enc s.text)), by simp [hout]⟩

/-- Witness for claim C10: the concrete one-sentence build publishes a
non-empty index. -/
theorem empty_extraction_no_index_published_witness :
    ∃ v rest, builtOut1.1.faiss_index = some (v :: rest) :=
  empty_extraction_no_index_published.2.2.2 true encConst nrmId initAgentState
    [sampleSentence] builtOut1 rfl

/-! ## Retrieval length lemmas -/

theorem insertDesc_length (p : ℚ × Int) (l : List (ℚ × Int)) :
    (insertDesc p l).length = l.length + 1 := by
  induction l with
  | nil => rfl
  | cons q rest ih =>
    unfold insertDesc
    split
    · rfl
    · simp [ih]

theorem sortDesc_length (l : List (ℚ × Int)) : (sortDesc l).length = l.length := by
  induction l with
  | nil => rfl
  | cons p rest ih => simp [sortDesc, insertDesc_length, ih]

theorem mem_insertDesc {x p : ℚ × Int} : ∀ {l : List (ℚ × Int)},
    x ∈ insertDesc p l → x = p ∨ x ∈ l := by
  intro l
  induction l with
  | nil =>
    intro h
    simp [insertDesc] at h
    exact Or.inl h
  | cons q rest ih =>
    intro h
    unfold insertDesc at h
    split at h
    · rcases List.mem_cons.mp h with h1 | h1
      · exact Or.inl h1
      · exact Or.inr h1
    · rcases List.mem_cons.mp h with h1 | h1
      · exact Or.inr (h1 ▸ List.mem_cons_self q rest)
      · rcases ih h1 with h2 | h2
        · exact Or.inl h2
        · exact Or.inr (List.mem_cons_of_mem q h2)

theorem mem_sortDesc {x : ℚ × Int} : ∀ {l : List (ℚ × Int)}, x ∈ sortDesc l → x ∈ l := by
  intro l
  induction l with
  | nil => intro h; simp [sortDesc] at h
  | cons p rest ih =>
    intro h
    rcases mem_insertDesc h with h1 | h1
    · exact h1 ▸ List.mem_cons_self p rest
    · exact List.mem_cons_of_mem p (ih h1)

theorem faissScores_length (stored : List (List ℚ)) (q : List ℚ) :
    (faissScores stored q).length = stored.length := by
  simp [faissScores]

/-- Every scored candidate is labelled with a valid stored position. -/
theorem faissScores_label_bound {stored : List (List ℚ)} {q : List ℚ} {pr : ℚ × Int}
    (h : pr ∈ faissScores stored q) : 0 ≤ pr.2 ∧ pr.2 < (stored.length : Int) := by
  simp only [faissScores, List.mem_map, List.mem_range] at h
  obtain ⟨i, hi, rfl⟩ := h
  constructor
  · show (0 : Int) ≤ (i : Int)
    exact Int.natCast_nonneg i
  · show (i : Int) < (stored.length : Int)
    exact_mod_cast hi

/-- A FAISS search always fills exactly `k` result slots. -/
theorem faissSearch_length (stored : List (List ℚ)) (q : List ℚ) (k : Nat) :
    (faissSearch stored q k).length = k := by
  unfold faissSearch
  simp only [List.length_append, List.length_take, List.length_replicate,
             sortDesc_length, faissScores_length]
  omega

/-- Every slot of a FAISS search is a padding label `-1` or a valid stored
position. -/
theorem faissSearch_label {stored : List (List ℚ)} {q : List ℚ} {k : Nat} {pr : ℚ × Int}
    (h : pr ∈ faissSearch stored q k) :
    pr.2 = -1 ∨ (0 ≤ pr.2 ∧ pr.2 < (stored.length : Int)) := by
  unfold faissSearch at h
  rcases List.mem_append.mp h with h1 | h1
  · exact Or.inr (faissScores_label_bound (mem_sortDesc (List.take_subset _ _ h1)))
  · exact Or.inl (by rw [List.eq_of_mem_replicate h1])

/-- On a non-empty metadata list, the result loop consumes every slot:
valid labels resolve directly and the `-1` padding labels resolve to the
last metadata entry through negative indexing, so no slot is skipped and
no IndexError occurs. -/
theorem buildResultsAux_ok (md : List SentenceData) (hmd : 1 ≤ md.length) :
    ∀ (pairs : List (ℚ × Int)) (r : Nat),
    (∀ pr ∈ pairs, pr.2 = -1 ∨ (0 ≤ pr.2 ∧ pr.2 < (md.length : Int))) →
    ∃ hits, buildResultsAux md pairs r = .ok hits ∧ hits.length = pairs.length := by
  intro pairs
  induction pairs with
  | nil => intro r _; exact ⟨[], rfl, rfl⟩
  | cons pr rest ih =>
    intro r hb
    obtain ⟨score, idx⟩ := pr
    have hpr := hb (score, idx) (List.mem_cons_self _ _)
    have hrest := fun p hp => hb p (List.mem_cons_of_mem _ hp)
    obtain ⟨hits, hok, hlen⟩ := ih (r + 1) hrest
    rcases hpr with hneg | ⟨hge, hlt⟩
    · have hidx : idx = -1 := hneg
      subst hidx
      have hget : pythonGet md (-1) = some (md.get ⟨md.length - 1, by omega⟩) := by
        unfold pythonGet
        rw [if_neg (by omega), if_pos (by omega)]
        have harg : ((md.length : Int) + -1).toNat = md.length - 1 := by omega
        rw [harg, List.get?_eq_get]
      refine ⟨{ sentence := md.get ⟨md.length - 1, by omega⟩, similarity_score := score,
                rank := r + 1 } :: hits, ?_, by simp [hlen]⟩
      simp only [buildResultsAux]
      rw [if_pos (by omega : (-1 : Int) < (md.length : Int)), hget, hok]
    · have hget : pythonGet md idx = some (md.get ⟨idx.toNat, by omega⟩) := by
        unfold pythonGet
        rw [if_pos hge, List.get?_eq_get]
      refine ⟨{ sentence := md.get ⟨idx.toNat, by omega⟩, similarity_score := score,
                rank := r + 1 } :: hits, ?_, by simp [hlen]⟩
      simp only [buildResultsAux]
      rw [if_pos hlt, hget, hok]

/-! ## Claim C1 — top-K result length -/

/-- Claim C1 (corrected): a query with `k ≥ 1` against any successfully
built index returns exactly `k` hits, not `min k indexSize`: when `k`
exceeds the index size, FAISS pads the result with label `-1`, which
passes the `idx < len(metadata)` bound check and subscripts the last
metadata entry via Python negative indexing.  (A built index is never
empty — `_build_rag_index` raises on an empty sentence list, see the
precondition theorem — so the empty-index clause of the claim has no
subject.) -/
theorem query_returns_topk_results (enc : String → List ℚ) (nrm : List ℚ → List ℚ)
    (avail : Bool) (st : AgentState) (sents : List SentenceData)
    (out : AgentState × RagIndexInfo) (q : String) (k : Nat) (_hk : 1 ≤ k)
    (h : _build_rag_index avail enc nrm st sents = .ok out) :
    ∃ hits, query_rag_index enc nrm out.1 q k = .ok hits ∧ hits.length = k := by
  obtain ⟨a, l, hs, hout⟩ := build_ok_state avail enc nrm st sents out h
  subst hs
  rw [hout]
  simp only [query_rag_index]
  have hmd : 1 ≤ (a :: l).length := by simp
  have hb : ∀ pr ∈ faissSearch ((((a :: l).map fun s => s.text).map enc).map nrm)
      (nrm (enc q)) k,
      pr.2 = -1 ∨ (0 ≤ pr.2 ∧ pr.2 < ((a :: l).length : Int)) := by
    intro pr hpr
    have hlab := faissSearch_label hpr
    simpa using hlab
  obtain ⟨hits, hok, hlen⟩ := buildResultsAux_ok (a :: l) hmd _ 0 hb
  exact ⟨hits, hok, by rw [hlen, faissSearch_length]⟩

/-- Witness for claim C1: querying the concrete one-sentence index with
`k = 1` yields exactly one hit. -/
theorem query_returns_topk_results_witness :
    ∃ hits, query_rag_index encConst nrmId builtOut1.1 "q" 1 = .ok hits
      ∧ hits.length = 1 :=
  query_returns_topk_results encConst nrmId true initAgentState [sampleSentence]
    builtOut1 "q" 1 (by decide) rfl

/-- Counterexample for claim C1 as stated: on the built one-sentence index
(`indexSize = 1`), a query with `k = 2` returns 2 hits, not
`min 2 1 = 1`. -/
theorem query_topk_exceeds_min_bound :
    (query_rag_index encConst nrmId builtOut1.1 "q" 2).map List.length
      ≠ Except.ok (min 2 builtOut1.1.sentence_metadata.length) := by
  intro h
  rw [show (query_rag_index encConst nrmId builtOut1.1 "q" 2).map List.length
        = Except.ok 2 from rfl,
      show min 2 builtOut1.1.sentence_metadata.length = 1 from rfl] at h
  injection h with h2
  exact absurd h2 (by decide)

/-! ## Claim C4 — sentence id density and page bounds -/

/-- The ids of the growing sentence list are exactly `0, 1, ...` in
order. -/
def idsDense (l : List SentenceData) : Prop :=
  l.map (fun s => s.id) = List.range l.length

/-- Every record's page number lies in `[1, total]`. -/
def pagesInRange (l : List SentenceData) (total : Nat) : Prop :=
  ∀ s ∈ l, 1 ≤ s.page ∧ s.page ≤ total

theorem idsDense_append (l : List SentenceData) (sd : SentenceData)
    (h : idsDense l) (hid : sd.id = l.length) : idsDense (l ++ [sd]) := by
  unfold idsDense at h ⊢
  simp [h, hid, List.range_succ]

theorem pagesInRange_append (l : List SentenceData) (sd : SentenceData) (total : Nat)
    (h : pagesInRange l total) (h1 : 1 ≤ sd.page) (h2 : sd.page ≤ total) :
    pagesInRange (l ++ [sd]) total := by
  intro s hs
  rcases List.mem_append.mp hs with hmem | hmem
  · exact h s hmem
  · rw [List.mem_singleton.mp hmem]
    exact ⟨h1, h2⟩

/-- The per-line emission loop appends records whose id is the current
list length and whose page is the current (1-based) page number, so both
invariants are preserved. -/
theorem emitSentences_inv (pw ph : ℚ) (pageNum total : Nat) (bb : BBox)
    (hpage : pageNum < total) :
    ∀ (ps : List (Nat × String)) (sents psents : List SentenceData),
    idsDense sents → pagesInRange sents total →
    idsDense (emitSentences pw ph pageNum bb ps sents psents).1
      ∧ pagesInRange (emitSentences pw ph pageNum bb ps sents psents).1 total := by
  intro ps
  induction ps with
  | nil => intro sents psents h1 h2; exact ⟨h1, h2⟩
  | cons p rest ih =>
    intro sents psents h1 h2
    obtain ⟨i, s⟩ := p
    unfold emitSentences
    split
    · exact ih _ _ (idsDense_append _ _ h1 rfl)
        (pagesInRange_append _ _ _ h2 (Nat.le_add_left 1 pageNum) hpage)
    · exact ih _ _ h1 h2

theorem processLine_inv (pw ph : ℚ) (pageNum total : Nat) (ln : TextLine)
    (hpage : pageNum < total) (acc : List SentenceData × List SentenceData)
    (h1 : idsDense acc.1) (h2 : pagesInRange acc.1 total) :
    idsDense (processLine pw ph pageNum ln acc).1
      ∧ pagesInRange (processLine pw ph pageNum ln acc).1 total := by
  rw [show processLine pw ph pageNum ln acc
        = (if pyStrip (spanFold ln.spans).1 ≠ "" then
            match (spanFold ln.spans).2 with
            | some bb =>
              emitSentences pw ph pageNum bb
                (_split_into_sentences (spanFold ln.spans).1).enum acc.1 acc.2
            | none => acc
          else acc) from rfl]
  split
  · split
    · exact emitSentences_inv pw ph pageNum total _ hpage _ acc.1 acc.2 h1 h2
    · exact ⟨h1, h2⟩
  · exact ⟨h1, h2⟩

theorem foldLines_inv (pw ph : ℚ) (pageNum total : Nat) (hpage : pageNum < total) :
    ∀ (lns : List TextLine) (acc : List SentenceData × List SentenceData),
    idsDense acc.1 → pagesInRange acc.1 total →
    idsDense (lns.foldl (fun a l => processLine pw ph pageNum l a) acc).1
      ∧ pagesInRange (lns.foldl (fun a l => processLine pw ph pageNum l a) acc).1 total := by
  intro lns
  induction lns with
  | nil => intro acc h1 h2; exact ⟨h1, h2⟩
  | cons ln rest ih =>
    intro acc h1 h2
    have h := processLine_inv pw ph pageNum total ln hpage acc h1 h2
    exact ih _ h.1 h.2

theorem processBlock_inv (pw ph : ℚ) (pageNum total : Nat) (b : Block)
    (hpage : pageNum < total) (acc : List SentenceData × List SentenceData)
    (h1 : idsDense acc.1) (h2 : pagesInRange acc.1 total) :
    idsDense (processBlock pw ph pageNum b acc).1
      ∧ pagesInRange (processBlock pw ph pageNum b acc).1 total := by
  unfold processBlock
  cases b.lines with
  | none => exact ⟨h1, h2⟩
  | some lns => exact foldLines_inv pw ph pageNum total hpage lns acc h1 h2

theorem processPageBlocks_inv (pw ph : ℚ) (pageNum total : Nat)
    (hpage : pageNum < total) (blocks : List Block) (sents : List SentenceData)
    (h1 : idsDense sents) (h2 : pagesInRange sents total) :
    idsDense (processPageBlocks pw ph pageNum blocks sents).1
      ∧ pagesInRange (processPageBlocks pw ph pageNum blocks sents).1 total := by
  unfold processPageBlocks
  have hstep : ∀ (bs : List Block) (acc : List SentenceData × List SentenceData),
      idsDense acc.1 → pagesInRange acc.1 total →
      idsDense (bs.foldl (fun a b => processBlock pw ph pageNum b a) acc).1
        ∧ pagesInRange (bs.foldl (fun a b => processBlock pw ph pageNum b a) acc).1 total := by
    intro bs
    induction bs with
    | nil => intro acc ha1 ha2; exact ⟨ha1, ha2⟩
    | cons b rest ih =>
      intro acc ha1 ha2
      have h := processBlock_inv pw ph pageNum total b hpage acc ha1 ha2
      exact ih _ h.1 h.2
  exact hstep blocks (sents, []) h1 h2

theorem extractPagesAux_inv (total : Nat) : ∀ (pages : List Page) (pageNum : Nat)
    (sents : List SentenceData) (pagesAcc : List PageEntry)
    (out : List SentenceData × List PageEntry),
    extractPagesAux pages pageNum sents pagesAcc = .ok out →
    pageNum + pages.length ≤ total →
    idsDense sents → pagesInRange sents total →
    idsDense out.1 ∧ pagesInRange out.1 total := by
  intro pages
  induction pages with
  | nil =>
    intro pageNum sents pagesAcc out h _ h1 h2
    injection h with h
    rw [← h]
    exact ⟨h1, h2⟩
  | cons p rest ih =>
    intro pageNum sents pagesAcc out h hle h1 h2
    unfold extractPagesAux at h
    cases hc : p.content with
    | error e => rw [hc] at h; exact absurd h (by simp)
    | ok pc =>
      rw [hc] at h
      have hpage : pageNum < total := by
        have := List.length_cons p rest ▸ hle
        omega
      have hres := processPageBlocks_inv p.width p.height pageNum total hpage
        pc.blocks sents h1 h2
      exact ih (pageNum + 1) _ _ out h (by simp at hle; omega) hres.1 hres.2

/-- Claim C4 (confirmed): whenever the extraction page walk returns, the
sentence ids are exactly `0, 1, ..., N-1` in extraction order — the id of
each appended record is the length of the global list at append time — and
every record's page lies in `[1, totalPages]`.  (The enclosing
`_extract_pdf_content` then discards this value through the
`document closed` bug recorded at claim C2; the id and page invariants are
properties of the walk itself, the cited lines 130-153.) -/
theorem extract_sentence_ids_dense (doc : PDFDoc)
    (out : List SentenceData × List PageEntry)
    (h : extractLoop doc = .ok out) :
    out.1.map (fun s => s.id) = List.range out.1.length
    ∧ ∀ s ∈ out.1, 1 ≤ s.page ∧ s.page ≤ doc.pages.length := by
  have hinv := extractPagesAux_inv doc.pages.length doc.pages 0 [] [] out h
    (by omega) rfl (by intro s hs; simp at hs)
  exact ⟨hinv.1, hinv.2⟩

/-- The concrete walk output on `sampleDoc`. -/
def sampleExtractOut : List SentenceData × List PageEntry :=
  match extractLoop sampleDoc with
  | .ok out => out
  | .error _ => ([], [])

/-- Witness for claim C4 on the concrete two-sentence document. -/
theorem extract_sentence_ids_dense_witness :
    sampleExtractOut.1.map (fun s => s.id) = List.range sampleExtractOut.1.length
    ∧ ∀ s ∈ sampleExtractOut.1, 1 ≤ s.page ∧ s.page ≤ sampleDoc.pages.length :=
  extract_sentence_ids_dense sampleDoc sampleExtractOut rfl
